import Mathlib

/-!
Verification of the task-pipeline abstraction of the aibtc crew repository.

The repository wires agents, tasks and tools into fixed sequential pipelines
(`src/aibtc-v1/crews/smart_contract_analyzer_v2.py`,
`src/aibtc-v1/crews/contract_code_generator.py`).  The pipeline builder itself
(the class `AIBTC_Crew` of `utils/crews.py`, with `add_agent` / `add_task` /
`create_crew`, and the sequential execution engine behind `kickoff`) is part of
the repository but its file is not present under `src/`; following the spec
those operations are modelled from the spec text and marked as such.  Every
other definition below is translated directly from the Python sources under
`src/`.

Conventions of the embedding:
- a Python tuple of strings (the sources frequently pass tuples where strings
  are expected, for descriptions, expected outputs and backstories) is
  embedded as a `List String`; a plain string becomes a one-element list;
- a `Task` object referenced from another `Task`'s `context` list is referred
  to by the Python variable name that holds it, recorded in the `id` field;
- `agent=self.agents[i]` is recorded as the numeric index `agentIdx := i`;
- brace characters inside the embedded template strings are written with
  `\x7b` and `\x7d` escapes, apostrophes with `\x27`, backticks with `\x60`;
  the decoded strings are identical to the Python source text.
-/

/-- An agent of a crew, as constructed by the `Agent(...)` calls in the
sources: a role, goal, backstory, tool list (by tool name), verbosity,
delegation and memory flags. -/
structure PAgent where
  role : String
  goal : String
  backstory : List String
  tools : List String
  verbose : Bool
  allow_delegation : Bool
  memory : Bool
deriving DecidableEq, Repr

/-- A task of a crew, as constructed by the `Task(...)` calls in the sources:
an identifier (the Python variable name holding the object), a description and
an expected-output template (tuples embedded as lists of strings), the index
of the owning agent in the crew agent list, and the list of identifiers of the
context tasks. -/
structure PTask where
  id : String
  description : List String
  expected_output : List String
  agentIdx : Nat
  context : List String
deriving DecidableEq, Repr

/-- Execution mode of a crew; the sources always use `Process.sequential`
(`contract_code_generator.py` line 154). -/
inductive PProcess where
  | sequential
  | hierarchical
deriving DecidableEq, Repr

/-- A pipeline (crew): an ordered agent list, an ordered task list and an
execution mode. -/
structure Pipeline where
  agents : List PAgent
  tasks : List PTask
  process : PProcess
deriving DecidableEq, Repr

/-! ## Helper functions of `smart_contract_analyzer_v2.py` -/

/-- Character-level translation of the Python expression
`identifier.split(".")`: scan the characters, closing the current part at
every dot.  On the empty string it yields `[""]`, exactly as Python does. -/
def splitDotAux : List Char → List Char → List String
  | cur, [] => [String.mk cur.reverse]
  | cur, c :: cs =>
      if c = '.' then String.mk cur.reverse :: splitDotAux [] cs
      else splitDotAux (c :: cur) cs

/-- `pySplitDot s` is Python's `s.split(".")`. -/
def pySplitDot (s : String) : List String :=
  splitDotAux [] s.data

/-- Translation of `parse_contract_identifier` (smart_contract_analyzer_v2.py
lines 587-591): split the identifier on a dot; if that yields exactly two
parts return them as a pair, otherwise return `(None, None)`. -/
def parse_contract_identifier (identifier : String) :
    Option String × Option String :=
  match pySplitDot identifier with
  | [a, b] => (some a, some b)
  | _ => (none, none)

/-- Outcome of the validation portion of `render_crew`
(smart_contract_analyzer_v2.py lines 478-495): either the run proceeds with a
parsed address and name, or a recoverable error message is displayed via
`st.error` followed by `st.stop()` (no exception is raised to the caller). -/
inductive RenderOutcome where
  | proceed (contract_address contract_name : String)
  | formatError (msg : String)
deriving DecidableEq, Repr

/-- Translation of the validation logic of `render_crew`
(smart_contract_analyzer_v2.py lines 478-495).  Python truthiness of the two
parsed strings is tested (`if parsed_address and parsed_name:`), so an empty
part also falls into the error branch.  The second check
(`if not contract_address or not contract_name:`) is only reached when both
parts are truthy, hence its error branch is dead code; it is kept for
fidelity. -/
def render_crew_validate (contract_identifier : String) : RenderOutcome :=
  match parse_contract_identifier contract_identifier with
  | (some a, some n) =>
      if a ≠ "" ∧ n ≠ "" then
        if a = "" ∨ n = "" then
          .formatError
            "Both contract address and name are required. Please use \x27address.name\x27 format."
        else .proceed a n
      else
        .formatError
          "Invalid contract identifier format. Please use \x27address.name\x27 format."
  | _ =>
      .formatError
        "Invalid contract identifier format. Please use \x27address.name\x27 format."

/-- Inputs mapping that `render_crew` supplies to the crew before a run
(smart_contract_analyzer_v2.py line 521:
`inputs = {"contract_name": contract_identifier}`). -/
def render_crew_inputs (contract_identifier : String) : List (String × String) :=
  [("contract_name", contract_identifier)]

/-! ## Tool discovery (`AgentTools`, smart_contract_analyzer_v2.py 557-579) -/

/-- A class member as seen by `inspect.getmembers`: its attribute name,
whether it is an instance of `Tool`, and whether it has a `__wrapped__`
attribute that is an instance of `Tool`. -/
structure PMember where
  name : String
  isToolInstance : Bool
  wrappedIsToolInstance : Bool
deriving DecidableEq, Repr

/-- The member produced by the `@tool("Get contract source code")` decorated
static method `get_contract_source_code` (smart_contract_analyzer_v2.py lines
559-568); the decorator turns the function into a `Tool` instance.  Its body
(unwrapping a `\x7b contract_name: value \x7d` dict argument and shelling out to
`BunScriptRunner.bun_run`) is an external capability and is not modelled. -/
def get_contract_source_code : PMember :=
  { name := "get_contract_source_code"
    isToolInstance := true
    wrappedIsToolInstance := false }

/-- The `get_all_tools` classmethod itself, also a member of the class; it is
not a `Tool` instance. -/
def get_all_tools_member : PMember :=
  { name := "get_all_tools"
    isToolInstance := false
    wrappedIsToolInstance := false }

/-- The members of the `AgentTools` class as enumerated by
`inspect.getmembers(cls)`: the two attributes defined in the class body.
`inspect.getmembers` also reports the attributes inherited from `object`
(dunder methods); none of them is a `Tool` instance nor has a `__wrapped__`
attribute, so they are represented by the tail parameter `inherited` in the
theorems below where generality matters, and omitted from this concrete
list. -/
def AgentToolsMembers : List PMember :=
  [get_all_tools_member, get_contract_source_code]

/-- Translation of `AgentTools.get_all_tools` (smart_contract_analyzer_v2.py
lines 570-579): keep exactly the members that are `Tool` instances or whose
`__wrapped__` attribute is a `Tool` instance. -/
def get_all_tools (members : List PMember) : List PMember :=
  members.filter (fun m => m.isToolInstance || m.wrappedIsToolInstance)

/-! ## Pipeline builder and sequential execution

The operations in this section are modelled from the spec, because the file
`utils/crews.py` that implements `AIBTC_Crew.add_agent`, `AIBTC_Crew.add_task`
and `create_crew`, and the sequential engine behind `kickoff`, are repository
code that is not present under `src/` (the crews under `src/` only call
them). -/

/-- Error raised at pipeline-assembly time when a task references an
unregistered context task (spec section 7, `DefinitionError` /
`DependencyError`): it carries the offending task and the first missing
context identifier. -/
structure DependencyError where
  taskId : String
  missing : String
deriving DecidableEq, Repr

/-- Modelled from the spec: `register_task(task)` of the Task Pipeline
Builder (`AIBTC_Crew.add_task` of `utils/crews.py`, not under `src/`).  It
appends the task to the task list, and fails with a `DependencyError` —
leaving the task list unchanged — if any referenced context task is not
already registered. -/
def add_task (tasks : List PTask) (t : PTask) :
    List PTask × Option DependencyError :=
  match t.context.find? (fun c => !(tasks.any (fun u => u.id == c))) with
  | some c => (tasks, some ⟨t.id, c⟩)
  | none => (tasks ++ [t], none)

/-- Register a sequence of tasks one by one with `add_task`, stopping at the
first `DependencyError` (a raised error in Python aborts the remaining
`add_task` calls of `setup_tasks`). -/
def register_all : List PTask → List PTask → List PTask × Option DependencyError
  | ts, [] => (ts, none)
  | ts, t :: rest =>
      match add_task ts t with
      | (ts', none) => register_all ts' rest
      | (ts', some e) => (ts', some e)

/-- Modelled from the spec: `register_agent(agent)` appends an agent to the
pipeline agent list (`AIBTC_Crew.add_agent` of `utils/crews.py`, not under
`src/`). -/
def add_agent (agents : List PAgent) (a : PAgent) : List PAgent :=
  agents ++ [a]

/-- Scanner state machine collecting the `\x7b`…`\x7d` placeholder names of a
template text: outside a placeholder (`none`) it waits for an opening brace,
inside one (`some acc`) it accumulates characters until the closing brace. -/
def scanPlaceholders : List Char → Option (List Char) → List String
  | [], _ => []
  | c :: cs, none =>
      if c = '\x7b' then scanPlaceholders cs (some [])
      else scanPlaceholders cs none
  | c :: cs, some acc =>
      if c = '\x7d' then String.mk acc.reverse :: scanPlaceholders cs none
      else scanPlaceholders cs (some (c :: acc))

/-- Modelled from the spec: the placeholder names occurring in a template
string (spec section 8: "placeholder names that appear in any task
description/expected-output template"; the interpolation itself lives in the
external agent framework). -/
def extractPlaceholders (s : String) : List String :=
  scanPlaceholders s.data none

/-- First value bound to a key in an association list (Python dictionary
lookup used for inputs and completed task outputs). -/
def lookupStr (kvs : List (String × String)) (k : String) : Option String :=
  (kvs.find? (fun p => p.1 == k)).map Prod.snd

/-- Character-level template substitution: replace each `\x7b name \x7d`
placeholder whose name is bound in the environment by its value; placeholders
with no binding, and an unterminated opening brace, are kept literally. -/
def renderChars (env : List (String × String)) :
    List Char → Option (List Char) → List Char
  | [], none => []
  | [], some acc => '\x7b' :: acc.reverse
  | c :: cs, none =>
      if c = '\x7b' then renderChars env cs (some [])
      else c :: renderChars env cs none
  | c :: cs, some acc =>
      if c = '\x7d' then
        match lookupStr env (String.mk acc.reverse) with
        | some v => v.data ++ renderChars env cs none
        | none => '\x7b' :: (acc.reverse ++ '\x7d' :: renderChars env cs none)
      else renderChars env cs (some (c :: acc))

/-- Modelled from the spec: render a template by substituting placeholder
tokens with values from the given environment (spec section 4.1, `run`). -/
def renderTemplate (env : List (String × String)) (s : String) : String :=
  String.mk (renderChars env s.data none)

/-- The outputs of the declared context tasks of `t`, looked up among the
completed outputs `outs` (spec section 4.1: values are found "either in
`inputs` or in the textual outputs of its declared context tasks"). -/
def contextOutputs (outs : List (String × String)) (t : PTask) :
    List (String × String) :=
  t.context.filterMap (fun c => (lookupStr outs c).map (fun v => (c, v)))

/-- Rendering of a task at invocation time: every part of its description is
rendered with the supplied inputs and the outputs of its declared context
tasks. -/
def renderTask (inputs outs : List (String × String)) (t : PTask) :
    List String :=
  t.description.map (renderTemplate (inputs ++ contextOutputs outs t))

/-- An injected external capability (spec section 6): given a task and its
rendered description it returns a textual result and a usage count, or an
error message. -/
def Capability : Type :=
  PTask → List String → Except String (String × Nat)

/-- Error raised during `run` when a task invocation fails (spec section 7,
`ExecutionError`): it carries the failing task identifier, the underlying
cause, and — in this model — the trace of capability invocations made before
the run aborted. -/
structure ExecutionError where
  taskId : String
  cause : String
  trace : List String
deriving DecidableEq, Repr

/-- Result of a successful run (spec section 3, Run Result): the final task
textual output, the accumulated usage total, the trace of capability
invocations in order, and a log recording, for every task, the completed
outputs that were available when it was rendered. -/
structure RunResult where
  final : String
  usage : Nat
  trace : List String
  log : List (String × List (String × String))
deriving DecidableEq, Repr

/-- Modelled from the spec: the strictly sequential task loop of `run` (spec
sections 4.1 and 5).  One task at a time, in list order: render the task,
invoke the capability, abort on the first failure, otherwise append the
output and accumulate usage. -/
def execTasks (cap : Capability) (inputs : List (String × String)) :
    List PTask → List (String × String) → Nat → List String →
    List (String × List (String × String)) →
    Except ExecutionError
      (List (String × String) × Nat × List String ×
        List (String × List (String × String)))
  | [], outs, usage, trace, log => .ok (outs, usage, trace, log)
  | t :: rest, outs, usage, trace, log =>
      match cap t (renderTask inputs outs t) with
      | .error e => .error ⟨t.id, e, trace ++ [t.id]⟩
      | .ok (out, u) =>
          execTasks cap inputs rest (outs ++ [(t.id, out)]) (usage + u)
            (trace ++ [t.id]) (log ++ [(t.id, outs)])

/-- Modelled from the spec: `run(inputs)` executes the tasks of the pipeline
strictly in declaration order and returns the final task textual result with
the accumulated usage (spec section 4.1); on the first failing task it
returns an `ExecutionError` and all intermediate outputs of the run are
discarded. -/
def run (P : Pipeline) (inputs : List (String × String)) (cap : Capability) :
    Except ExecutionError RunResult :=
  match execTasks cap inputs P.tasks [] 0 [] [] with
  | .error e => .error e
  | .ok (outs, usage, trace, log) =>
      .ok ⟨((outs.getLast?).map Prod.snd).getD "", usage, trace, log⟩

/-- Assembly-time validity of a task sequence: every task only references
context tasks registered before it (`done` holds the identifiers registered
so far).  This is the invariant that `add_task` establishes. -/
def contextsValidAux (done : List String) : List PTask → Bool
  | [] => true
  | t :: rest =>
      t.context.all (fun c => decide (c ∈ done)) &&
        contextsValidAux (done ++ [t.id]) rest

/-! ## Templates of `smart_contract_analyzer_v2.py` (lines 9-79)

The four module-level template strings.  Braces are written with `\x7b` and
`\x7d` escapes (the decoded text is identical to the Python source). -/

/-- Template `taskListFormat` (lines 9-15). -/
def taskListFormat : String :=
  "\n## \x7bdescription of analysis\x7d\n\n- \x7bitem 1\x7d: \x7bdescription of item 1\x7d\n- \x7bitem 2\x7d: \x7bdescription of item 2\x7d\n- \x7bitem 3\x7d: \x7bdescription of item 3\x7d\n"

/-- Template `taskReportFormat` (lines 17-29). -/
def taskReportFormat : String :=
  "\n## Summary of Findings\n\n\x7bshort summary of findings\x7d\n\n## Detailed Analysis\n\n\x7bdetailed analysis of findings\x7d\n\n## References to Specific Code Segments\n\n\x7breferences to specific code segments\x7d\n"

/-- Template `analysisFormat` (lines 31-57). -/
def analysisFormat : String :=
  "\n# Contract analysis for \x7bcontract_name\x7d\n\n## General Concept\n\n\x7bgeneral concept of the contract\x7d\n\n## RED Functions\n\n\x7blist of RED functions\x7d\n\n## ORANGE Functions\n\n\x7blist of ORANGE functions\x7d\n\n## YELLOW Functions\n\n\x7blist of YELLOW functions\x7d\n\n## GREEN Functions\n\n\x7blist of GREEN functions\x7d\n\n## Missing Functions\n\n\x7blist of missing functions\x7d\n"

/-- Template `reviewFormat` (lines 59-79). -/
def reviewFormat : String :=
  "\n## Complex Logic Review\n\n\x7breview of complex logic\x7d\n\n## Fee Validation\n\n\x7bvalidation of fees and token transfers\x7d\n\n## Input Validation\n\n\x7bvalidation of user-provided inputs\x7d\n\n## Pause and Resume Mechanisms\n\n\x7banalysis of pause and resume mechanisms\x7d\n\n## Final Analysis\n\n\x7bfinal analysis of the contract\x7d\n"

/-! ## Agents of `SmartContractAnalyzerV2.setup_agents` (lines 86-131) -/

/-- The contract retrieval agent (lines 88-100); passed to `add_agent` on
line 101.  The `memory` parameter is not passed in the source; the framework
default (no memory) is recorded. -/
def contract_retrieval_agent : PAgent :=
  { role := "Contract Retrieval Expert"
    goal := "To retrieve the contract code for analysis."
    backstory :=
      ["You are a contract retrieval agent with expertise in fetching contract code and functions for analysis.",
       "Your role is crucial in providing the necessary data for the audit team to perform their tasks effectively.",
       "You always use the fully qualified contract name (ADDRESS.CONTRACT_NAME) to ensure accurate retrieval."]
    tools := ["get_contract_source_code"]
    verbose := true
    allow_delegation := false
    memory := false }

/-- The contract analysis agent (lines 104-115); passed to `add_agent` on
line 116. -/
def contract_analysis_agent : PAgent :=
  { role := "Contract Analysis Expert"
    goal := "To analyze the contract code and functions to understand the purpose and function of a smart contract."
    backstory :=
      ["You are a contract analysis agent with expertise in dissecting smart contract codebases and identifying potential risks.",
       "Your role is critical in assessing the security and functionality of the contracts under audit."]
    tools := []
    verbose := true
    allow_delegation := false
    memory := false }

/-- The contract report writer (lines 119-130); constructed but never passed
to `add_agent` — `setup_agents` ends after the constructor call. -/
def contract_report_writer : PAgent :=
  { role := "Contract Report Writer"
    goal := "To compile the findings from the contract analysis into a comprehensive audit report."
    backstory :=
      ["You are a contract report writer with experience in summarizing complex technical information into clear and concise reports.",
       "Your role is essential in documenting the audit results and recommendations for the contract developers."]
    tools := []
    verbose := true
    allow_delegation := false
    memory := false }

/-- The agent list after `setup_agents`: `add_agent` is called exactly twice
(lines 101 and 116); `contract_report_writer` is never registered. -/
def setup_agents_registered : List PAgent :=
  add_agent (add_agent [] contract_retrieval_agent) contract_analysis_agent

/-! ## Tasks of `SmartContractAnalyzerV2.setup_tasks` (lines 132-456) -/

/-- Task `get_contract_code` (lines 138-143). -/
def get_contract_code : PTask :=
  { id := "get_contract_code"
    description := ["Retrieve the contract code for analysis."]
    expected_output :=
      ["The contract code for analysis in raw format with no modifications or additional output."]
    agentIdx := 0
    context := [] }

/-- Task `general_concept` (lines 147-156). -/
def general_concept : PTask :=
  { id := "general_concept"
    description := ["Given the contract code, what is the general concept of the contract?"]
    expected_output :=
      ["A summary of the contract\x27s purpose and functionality.",
       "This should follow the strict format defined below:",
       taskReportFormat]
    agentIdx := 1
    context := ["get_contract_code"] }

/-- Task `trait_functions` (lines 160-169). -/
def trait_functions : PTask :=
  { id := "trait_functions"
    description := ["Identify functions that take traits as arguments and note what each function does."]
    expected_output :=
      ["A list of functions that take traits as arguments with descriptions of what each function does.",
       "This should follow the strict Markdown format defined below:",
       taskReportFormat]
    agentIdx := 1
    context := ["get_contract_code"] }

/-- Task `as_contract_functions` (lines 173-182). -/
def as_contract_functions : PTask :=
  { id := "as_contract_functions"
    description := ["Identify all instances where \x60as-contract\x60 is used with \x60contract-call?\x60 and note the functions involved."]
    expected_output :=
      ["Documentation of all instances where \x60as-contract\x60 is used with \x60contract-call?\x60, including function names.",
       "This should follow the strict Markdown format defined below:",
       taskReportFormat]
    agentIdx := 1
    context := ["get_contract_code"] }

/-- Task `green_functions` (lines 186-198). -/
def green_functions : PTask :=
  { id := "green_functions"
    description :=
      ["Help identify and categorize functions that would be considered GREEN in terms of risk.",
       "GREEN - harmless, do not participate in anything super important, in most cases it will be just a read-only function that returns value stored on-chain"]
    expected_output :=
      ["A list of functions categorized as GREEN based on their risk levels.",
       "This should follow the strict Markdown format defined below:",
       taskListFormat]
    agentIdx := 1
    context := ["get_contract_code"] }

/-- Task `yellow_functions` (lines 202-214): constructed but never passed to
`add_task` — the `self.add_task(yellow_functions)` call is absent from the
source. -/
def yellow_functions : PTask :=
  { id := "yellow_functions"
    description :=
      ["Help identify and categorize functions that would be considered YELLOW in terms of risk.",
       "YELLOW - can change value of variable of map entry, but they are not used to anything critical. In most cases it will functions that can modify meta-data stored on chain."]
    expected_output :=
      ["A list of functions categorized as YELLOW based on their risk levels.",
       "This should follow the strict Markdown format defined below:",
       taskListFormat]
    agentIdx := 1
    context := ["get_contract_code"] }

/-- Task `orange_functions` (lines 217-230). -/
def orange_functions : PTask :=
  { id := "orange_functions"
    description :=
      ["Help identify and categorize functions that would be considered ORANGE in terms of risk.",
       "ORANGE - functions without side-effects used by functions with side-effects and functions with side-effects that can alter contract behavior but not in a way that can lead to theft, funds loss or contract lock."]
    expected_output :=
      ["A list of functions categorized as ORANGE based on their risk levels.",
       "This should follow the strict Markdown format defined below:",
       taskListFormat]
    agentIdx := 1
    context := ["get_contract_code"] }

/-- Task `missing_functions` (lines 233-248): its context references
`yellow_functions`, which is never registered. -/
def missing_functions : PTask :=
  { id := "missing_functions"
    description :=
      ["Help identify and categorize functions that are missing from the GREEN, YELLOW, and ORANGE categories, if any."]
    expected_output :=
      ["A list of functions that are missing from the GREEN, YELLOW, and ORANGE categories.",
       "This should follow the strict Markdown format defined below:",
       taskListFormat]
    agentIdx := 1
    context := ["get_contract_code", "green_functions", "yellow_functions", "orange_functions"] }

/-- Task `analyze_green_contracts` (lines 254-269). -/
def analyze_green_contracts : PTask :=
  { id := "analyze_green_contracts"
    description :=
      ["Analyze the GREEN functions for correctness and consider the following:",
       "Functions that are read-only should not have any side-effects.",
       "Example: A function that returns the balance of an account should not modify the balance."]
    expected_output :=
      ["An analysis of GREEN functions with any reported issues and recommended fixes.",
       "Do not include any contract code, only the analysis and recommendations.",
       "This should follow the strict Markdown format defined below:",
       taskReportFormat]
    agentIdx := 1
    context := ["get_contract_code", "green_functions"] }

/-- Task `analyze_yellow_contracts` (lines 271-287). -/
def analyze_yellow_contracts : PTask :=
  { id := "analyze_yellow_contracts"
    description :=
      ["Analyze the YELLOW functions for proper authorization and access control and consider the following:",
       "Functions that can be called by people who shouldn\x27t be able to call them must be fixed.",
       "Example: Function that allows to change token URI can be executed successfully by anyone, but only admin should be allowed to do that.",
       "Functions secured using \x60tx-sender\x60 or \x60contract-caller\x60 value must be triple checked. If values they change aren\x27t critical (used to secure other functions) they are OK."]
    expected_output :=
      ["An analysis of YELLOW functions with any reported issues and recommended fixes.",
       "Do not include any contract code, only the analysis and recommendations.",
       "This should follow the strict Markdown format defined below:",
       taskReportFormat]
    agentIdx := 1
    context := ["get_contract_code", "yellow_functions"] }

/-- Task `analyze_orange_contracts` (lines 289-305). -/
def analyze_orange_contracts : PTask :=
  { id := "analyze_orange_contracts"
    description :=
      ["Analyze the ORANGE functions for for proper authorization, access control and security vulnerabilities, and consider the following:",
       "Functions with side-effects (minting, transferring, burning STX/FT/NFT) must be secured properly.",
       "Who can perform each action should be documented and verified as part of the report.",
       "Functions secured using \x60tx-sender\x60 or \x60contract-caller\x60 value must be triple checked."]
    expected_output :=
      ["An analysis of ORANGE functions with any reported issues and recommended fixes.",
       "Do not include any contract code, only the analysis and recommendations.",
       "This should follow the strict Markdown format defined below:",
       taskReportFormat]
    agentIdx := 1
    context := ["get_contract_code", "orange_functions"] }

/-- Task `analyze_red_contracts` (lines 307-323). -/
def analyze_red_contracts : PTask :=
  { id := "analyze_red_contracts"
    description :=
      ["Analyze the provided functions as RED functions for critical security issues and consider the following:",
       "Functions that can lead to theft, funds loss or contract lock must be secured properly.",
       "Who can perform each action should be documented and verified as part of the report.",
       "Functions secured using \x60tx-sender\x60 or \x60contract-caller\x60 value must be triple checked."]
    expected_output :=
      ["An analysis of RED functions with any reported issues and recommended fixes.",
       "Do not include any contract code, only the analysis and recommendations.",
       "This should follow the strict Markdown format defined below:",
       taskReportFormat]
    agentIdx := 1
    context := ["get_contract_code", "trait_functions", "as_contract_functions"] }

/-- Task `review_complex_logic` (lines 329-344). -/
def review_complex_logic : PTask :=
  { id := "review_complex_logic"
    description :=
      ["Review complex logic identified in previous stages for potential flaws and consider the following:",
       "Complex logic should be broken down into smaller, more manageable parts.",
       "Edge cases and potential vulnerabilities should be identified and addressed."]
    expected_output :=
      ["An analysis of complex logic segments with any reported issues and recommended fixes.",
       "Do not include any contract code, only the analysis and recommendations.",
       "This should follow the strict Markdown format defined below:",
       taskReportFormat]
    agentIdx := 1
    context := ["get_contract_code"] }

/-- Task `review_fee_validation` (lines 346-361). -/
def review_fee_validation : PTask :=
  { id := "review_fee_validation"
    description :=
      ["Review the validation of fees and token transfers for potential issues and consider the following:",
       "Fees and token transfers should be validated to prevent zero or unintended values.",
       "Edge cases and potential vulnerabilities should be identified and addressed."]
    expected_output :=
      ["An analysis of fee validation and token transfer logic with any reported issues and recommended fixes.",
       "Do not include any contract code, only the analysis and recommendations.",
       "This should follow the strict Markdown format defined below:",
       taskReportFormat]
    agentIdx := 1
    context := ["get_contract_code"] }

/-- Task `review_input_validation` (lines 363-378). -/
def review_input_validation : PTask :=
  { id := "review_input_validation"
    description :=
      ["Review the validation of user-provided inputs for potential vulnerabilities and consider the following:",
       "User inputs should be properly validated to prevent vulnerabilities.",
       "Edge cases and potential vulnerabilities should be identified and addressed."]
    expected_output :=
      ["An analysis of input validation logic with any reported issues and recommended fixes.",
       "Do not include any contract code, only the analysis and recommendations.",
       "This should follow the strict Markdown format defined below:",
       taskReportFormat]
    agentIdx := 1
    context := ["get_contract_code"] }

/-- Task `review_pause_resume` (lines 380-395). -/
def review_pause_resume : PTask :=
  { id := "review_pause_resume"
    description :=
      ["Review the mechanisms for pausing and resuming contract operations for potential issues and consider the following:",
       "Pause functionality should include a way to resume to prevent permanent contract lockout.",
       "Edge cases and potential vulnerabilities should be identified and addressed."]
    expected_output :=
      ["An analysis of pause and resume mechanisms with any reported issues and recommended fixes.",
       "Do not include any contract code, only the analysis and recommendations.",
       "This should follow the strict Markdown format defined below:",
       taskReportFormat]
    agentIdx := 1
    context := ["get_contract_code"] }

/-- Task `compile_analysis` (lines 402-422); `agent=self.agents[2]`. -/
def compile_analysis : PTask :=
  { id := "compile_analysis"
    description :=
      ["Compile the findings from the contract analysis into a comprehensive audit report."]
    expected_output :=
      ["A detailed audit report summarizing the findings from the contract analysis.",
       "This should follow the strict Markdown format defined below:",
       analysisFormat]
    agentIdx := 2
    context :=
      ["general_concept", "green_functions", "yellow_functions", "orange_functions",
       "missing_functions", "analyze_green_contracts", "analyze_yellow_contracts",
       "analyze_orange_contracts", "analyze_red_contracts"] }

/-- Task `compile_review` (lines 425-440); `agent=self.agents[2]`. -/
def compile_review : PTask :=
  { id := "compile_review"
    description :=
      ["Compile the findings from the contract review into a comprehensive audit report."]
    expected_output :=
      ["A detailed audit report summarizing the findings from the contract review.",
       "This should follow the strict Markdown format defined below:",
       reviewFormat]
    agentIdx := 2
    context :=
      ["review_complex_logic", "review_fee_validation", "review_input_validation",
       "review_pause_resume"] }

/-- Task `final_report` (lines 443-456); `agent=self.agents[2]`. -/
def final_report : PTask :=
  { id := "final_report"
    description := ["Finalize the audit report with all the compiled information."]
    expected_output :=
      ["The finalized audit report ready for delivery to the contract developers.",
       "This should be a well-structured and detailed report that includes all the findings and recommendations.",
       "The report format should match the provided template.",
       analysisFormat,
       reviewFormat,
       "## Additional Comments"]
    agentIdx := 2
    context := ["compile_analysis", "compile_review"] }

/-- The sequence of `add_task` calls of `setup_tasks`, in source order
(lines 144-456).  `yellow_functions` does not appear: it is constructed on
line 202 but never passed to `add_task`. -/
def sca_add_order : List PTask :=
  [get_contract_code, general_concept, trait_functions, as_contract_functions,
   green_functions, orange_functions, missing_functions, analyze_green_contracts,
   analyze_yellow_contracts, analyze_orange_contracts, analyze_red_contracts,
   review_complex_logic, review_fee_validation, review_input_validation,
   review_pause_resume, compile_analysis, compile_review, final_report]

/-- All task objects constructed by `setup_tasks`, in construction order,
including the never-registered `yellow_functions`. -/
def sca_defined_tasks : List PTask :=
  [get_contract_code, general_concept, trait_functions, as_contract_functions,
   green_functions, yellow_functions, orange_functions, missing_functions,
   analyze_green_contracts, analyze_yellow_contracts, analyze_orange_contracts,
   analyze_red_contracts, review_complex_logic, review_fee_validation,
   review_input_validation, review_pause_resume, compile_analysis,
   compile_review, final_report]

/-- The task list registered by the `add_task` calls that precede the
`add_task(missing_functions)` call of line 248 (the first six registered
tasks). -/
def sca_before_missing : List PTask :=
  [get_contract_code, general_concept, trait_functions, as_contract_functions,
   green_functions, orange_functions]

namespace SmartContractAnalyzerV2

/-- Translation of `SmartContractAnalyzerV2.get_task_inputs`
(smart_contract_analyzer_v2.py lines 458-460): a hard-coded list. -/
def get_task_inputs : List String :=
  ["contract_code"]

end SmartContractAnalyzerV2

/-- The placeholder names occurring in the description or expected-output
templates of the `SmartContractAnalyzerV2` tasks. -/
def sca_template_placeholders : List String :=
  (sca_defined_tasks.map
    (fun t => (t.description ++ t.expected_output).map extractPlaceholders)).flatten.flatten

/-! ## `contract_code_generator.py`: agents, tasks, crew (lines 72-162)

Python implicit string-literal concatenation (adjacent literals inside
parentheses) yields a single string; those backstories and descriptions are
embedded as the single concatenated string, exactly as Python builds it. -/

/-- Agent `clarity_code_generator` (lines 73-85). -/
def clarity_code_generator : PAgent :=
  { role := "Clarity Code Generator"
    goal := "Generate Clarity code for a smart contract on the Stacks blockchain based on user input requirements."
    backstory :=
      ["You are an expert in Clarity, a smart contract language for the Stacks blockchain. Your goal is to write secure, efficient, and functional Clarity code based on specific user requirements. You should tailor your code generation to meet the exact needs described in the user input."]
    tools := []
    verbose := true
    allow_delegation := false
    memory := true }

/-- Agent `clarity_code_reviewer` (lines 88-100). -/
def clarity_code_reviewer : PAgent :=
  { role := "Clarity Code Reviewer"
    goal := "Review the generated Clarity code, create a Clarinet project, and check its syntax."
    backstory :=
      ["You are a meticulous Clarity code reviewer known for ensuring smart contract security and code quality on the Stacks blockchain. Your goal is to analyze the generated code, create a Clarinet project, and check the syntax, providing detailed feedback on any issues found."]
    tools := ["runClarinet"]
    verbose := true
    allow_delegation := false
    memory := true }

/-- Agent `clarity_code_compiler` (lines 103-115). -/
def clarity_code_compiler : PAgent :=
  { role := "Clarity Code Compiler"
    goal := "Combine the generated Clarity code and the code review report into a comprehensive output for the Streamlit app."
    backstory :=
      ["You are a Clarity code compilation expert for the Stacks blockchain, responsible for taking the generated Clarity code and the code review report, and combining them into a final, comprehensive output that can be displayed in the Streamlit app. You ensure that the output clearly presents both the code and its review in a user-friendly format."]
    tools := []
    verbose := true
    allow_delegation := false
    memory := true }

/-- Task `generate_clarity_code_task` (lines 118-126); `agent` is
`clarity_code_generator`, the agent at index 0 of the crew agent list; no
`context` parameter is passed. -/
def generate_clarity_code_task : PTask :=
  { id := "generate_clarity_code_task"
    description :=
      ["Generate a Clarity code snippet for a smart contract on the Stacks blockchain based on the following user requirements: \x7buser_input\x7d. Ensure the code is secure, efficient, and properly handles exceptions. Store your code in crew\x27s shared memory \x27contract_code\x27."]
    expected_output :=
      ["Provide a Clarity code snippet for a smart contract that meets the specified user requirements."]
    agentIdx := 0
    context := [] }

/-- Task `review_clarity_code_task` (lines 129-138); agent index 1. -/
def review_clarity_code_task : PTask :=
  { id := "review_clarity_code_task"
    description :=
      ["Review the generated Clarity code, create a Clarinet project with it, and check its syntax. Provide a detailed report on the code quality, syntax check results, and any issues found. Consider how well the code meets the original user requirements: \x7buser_input\x7d. You can find the code in crew\x27s shared memory \x27contract_code\x27. Store your response in crew\x27s shared memory \x27review\x27."]
    expected_output :=
      ["A detailed report on code quality, syntax check results, and any issues found, with reference to the original user requirements."]
    agentIdx := 1
    context := [] }

/-- Task `compile_clarity_code_task` (lines 141-149); agent index 2. -/
def compile_clarity_code_task : PTask :=
  { id := "compile_clarity_code_task"
    description :=
      ["Combine the generated Clarity code and the code review report into a comprehensive output that can be displayed in the Streamlit app. Ensure that the output clearly shows how the code meets the original user requirements: \x7buser_input\x7d. You can access the contract code from crew\x27s shared memory \x27contract_code\x27 and the code review from \x27review\x27."]
    expected_output :=
      ["The final output that includes the Clarity code, the code review report, and how it addresses the user\x27s requirements."]
    agentIdx := 2
    context := [] }

/-- The module-level `crew` (contract_code_generator.py lines 151-156):
three agents, three tasks, `process=Process.sequential`. -/
def crew : Pipeline :=
  { agents := [clarity_code_generator, clarity_code_reviewer, clarity_code_compiler]
    tasks := [generate_clarity_code_task, review_clarity_code_task, compile_clarity_code_task]
    process := .sequential }

/-- Translation of `generate_and_review_contract` (lines 159-162):
`crew.kickoff(inputs={"user_input": user_input})`, with the execution engine
(an external capability in this model) passed explicitly. -/
def generate_and_review_contract (cap : Capability) (user_input : String) :
    Except ExecutionError RunResult :=
  run crew [("user_input", user_input)] cap

/-! ## `runClarinet` (contract_code_generator.py lines 13-58) -/

/-- Outcome of the external effects inside `runClarinet`: whether
`clarinet new` succeeds (it is run with `check=True`, so failure raises
`CalledProcessError`), whether `clarinet contract new` succeeds (also
`check=True`), and whether the contract-file write succeeds (an `OSError`
there is not caught by the `except subprocess.CalledProcessError` clause).
The final `clarinet check` call uses `capture_output=True` without
`check=True`, so it cannot raise `CalledProcessError` and needs no flag. -/
structure ClarinetEnv where
  newOk : Bool
  contractNewOk : Bool
  writeOk : Bool
deriving DecidableEq, Repr

/-- How a `runClarinet` call ends: a normal return from the `try` block, the
return of the `except subprocess.CalledProcessError` branch, or an uncaught
exception propagating to the caller. -/
inductive ClarinetOutcome where
  | returned (msg : String)
  | caughtCPE (msg : String)
  | raised (exc : String)
deriving DecidableEq, Repr

/-- The text of a `CalledProcessError` for a command, as interpolated by
`f"Error: \x7be\x7d"` in the except branch. -/
def calledProcessErrorMsg (cmd : String) : String :=
  "Command \x27" ++ cmd ++ "\x27 returned non-zero exit status 1."

/-- The `try`/`except` body of `runClarinet` (lines 30-56), threading the
process working directory: `clarinet new` (line 32, may raise
`CalledProcessError`, caught on line 55), `os.chdir(project_name)` (line 36),
`clarinet contract new` (line 39, may raise, caught), the contract-file write
(lines 44-45, an `OSError` is not caught), the `clarinet check` call (lines
49-51, cannot raise), and the success return (line 54).  Returns the outcome
together with the working directory at the moment the body exits. -/
def runClarinetTry (env : ClarinetEnv) (project_name contract_name : String)
    (cwd : String) : ClarinetOutcome × String :=
  if !env.newOk then
    (.caughtCPE ("Error: " ++ calledProcessErrorMsg ("clarinet new " ++ project_name)), cwd)
  else
    let cwd1 := project_name
    if !env.contractNewOk then
      (.caughtCPE ("Error: " ++ calledProcessErrorMsg ("clarinet contract new " ++ contract_name)), cwd1)
    else if !env.writeOk then
      (.raised "OSError", cwd1)
    else
      (.returned ("Successfully created project \x27" ++ project_name ++ "\x27, added contract \x27" ++ contract_name ++ "\x27, and checked its syntax."), cwd1)

/-- Translation of `runClarinet` (lines 13-58): record the initial working
directory (line 29, `initial_dir = os.getcwd()`), execute the body, and on
every exit path restore the initial directory (line 58,
`finally: os.chdir(initial_dir)`).  The `contract_code` argument is written
to the contract file, an external effect with no bearing on the returned
message or the working directory. -/
def runClarinet (env : ClarinetEnv)
    (project_name contract_name contract_code : String) (cwd : String) :
    ClarinetOutcome × String :=
  let initial_dir := cwd
  let body := runClarinetTry env project_name contract_name cwd
  (body.1, initial_dir)

/-! ## Deterministic stub capabilities and the spec example pipeline

Spec section 8 asks for runs with "deterministic stub capabilities" and gives
a two-task example pipeline (task A with no context, task B with context
`[A]`); these close the pipeline theorems on concrete inputs. -/

/-- A deterministic stub capability: echoes the task identifier and meters
one usage unit per invocation. -/
def stubCap : Capability :=
  fun t _ => .ok (t.id ++ " output", 1)

/-- A deterministic stub capability whose invocation raises on task `B`,
simulating a failing task. -/
def failBCap : Capability :=
  fun t _ => if t.id = "B" then .error "boom" else .ok (t.id ++ " output", 1)

/-- Task A of the spec example (no context, templated on `x`). -/
def exampleTaskA : PTask :=
  { id := "A"
    description := ["Fetch \x7bx\x7d"]
    expected_output := ["the fetched document"]
    agentIdx := 0
    context := [] }

/-- Task B of the spec example: context `[A]`; its template interpolates the
output of A under the identifier `A`. -/
def exampleTaskB : PTask :=
  { id := "B"
    description := ["Summarize: \x7bA\x7d"]
    expected_output := ["a summary"]
    agentIdx := 0
    context := ["A"] }

/-- The two-task example pipeline of spec section 8. -/
def examplePipeline : Pipeline :=
  { agents := []
    tasks := [exampleTaskA, exampleTaskB]
    process := .sequential }

/-! ## Claim C7 -/

/-- C7: for every string `s`, `parse_contract_identifier s` returns the pair
of the two dot-separated parts of `s` exactly when splitting `s` on a dot
yields exactly two parts, and `(none, none)` otherwise; and an identifier
failing the two-part check is surfaced by `render_crew` as a recoverable
error message, not as a raised error. -/
theorem parse_contract_identifier_spec (s : String) :
    (parse_contract_identifier s =
      if (pySplitDot s).length = 2
      then ((pySplitDot s).head?, (pySplitDot s)[1]?)
      else (none, none)) ∧
    ((pySplitDot s).length ≠ 2 →
      render_crew_validate s =
        .formatError
          "Invalid contract identifier format. Please use \x27address.name\x27 format.") := by
  constructor
  · unfold parse_contract_identifier
    rcases h : pySplitDot s with _ | ⟨a, _ | ⟨b, _ | ⟨c, t⟩⟩⟩ <;> simp
  · intro hlen
    unfold render_crew_validate parse_contract_identifier
    rcases h : pySplitDot s with _ | ⟨a, _ | ⟨b, _ | ⟨c, t⟩⟩⟩ <;>
      simp_all

/-- Witness for C7 at the concrete input `"abc"` (one part, not two). -/
theorem parse_contract_identifier_spec_witness :
    (pySplitDot "abc").length ≠ 2 ∧
    render_crew_validate "abc" =
      .formatError
        "Invalid contract identifier format. Please use \x27address.name\x27 format." :=
  ⟨by decide, (parse_contract_identifier_spec "abc").2 (by decide)⟩

/-! ## Claim C8 -/

/-- C8: `get_all_tools` returns exactly the members that are `Tool` instances
or whose `__wrapped__` attribute is a `Tool` instance, and on the `AgentTools`
class (its two defined members plus any inherited non-Tool members) it returns
exactly the single `get_contract_source_code` tool. -/
theorem get_all_tools_spec (inherited : List PMember)
    (hinh : ∀ m ∈ inherited,
      m.isToolInstance = false ∧ m.wrappedIsToolInstance = false) :
    (∀ ms : List PMember, ∀ m : PMember,
      m ∈ get_all_tools ms ↔
        m ∈ ms ∧ (m.isToolInstance = true ∨ m.wrappedIsToolInstance = true)) ∧
    get_all_tools (AgentToolsMembers ++ inherited) = [get_contract_source_code] := by
  constructor
  · intro ms m
    simp [get_all_tools, List.mem_filter, Bool.or_eq_true]
  · unfold get_all_tools AgentToolsMembers
    rw [List.filter_append]
    have h2 : inherited.filter
        (fun m => m.isToolInstance || m.wrappedIsToolInstance) = [] := by
      rw [List.filter_eq_nil_iff]
      intro m hm
      rcases hinh m hm with ⟨h1, h2⟩
      simp [h1, h2]
    rw [h2]
    rfl

/-- Witness for C8 with no inherited members. -/
theorem get_all_tools_spec_witness :
    get_all_tools (AgentToolsMembers ++ []) = [get_contract_source_code] :=
  (get_all_tools_spec [] (by intro m hm; cases hm)).2

/-! ## Helper lemmas about the pipeline execution model -/

/-- A key is resolvable in an association list exactly when it occurs among
the keys. -/
theorem lookupStr_isSome_iff (kvs : List (String × String)) (k : String) :
    (lookupStr kvs k).isSome = true ↔ k ∈ kvs.map Prod.fst := by
  induction kvs with
  | nil => simp [lookupStr]
  | cons q rest ih =>
      unfold lookupStr at ih ⊢
      by_cases h : q.1 = k
      · rw [List.find?_cons_of_pos _ (by simp [h])]
        simp [h]
      · rw [List.find?_cons_of_neg _ (by simp [h])]
        rw [ih]
        simp [h, eq_comm]
        intro hk
        exact absurd hk.symm h

/-- Executing a concatenation of task lists executes the first part and, if
it succeeds, continues with the second from the reached state. -/
theorem execTasks_append (cap : Capability) (inputs : List (String × String))
    (a b : List PTask) :
    ∀ (outs : List (String × String)) (usage : Nat) (trace : List String)
      (log : List (String × List (String × String))),
      execTasks cap inputs (a ++ b) outs usage trace log =
        match execTasks cap inputs a outs usage trace log with
        | .error e => .error e
        | .ok (o, u, tr, lg) => execTasks cap inputs b o u tr lg := by
  induction a with
  | nil => intro outs usage trace log; rfl
  | cons t rest ih =>
      intro outs usage trace log
      simp only [List.cons_append, execTasks]
      cases h : cap t (renderTask inputs outs t) with
      | error e => simp [h]
      | ok p =>
          obtain ⟨out, u⟩ := p
          simp only [h]
          exact ih _ _ _ _

/-- Shape of a successful execution: the trace is the declaration order of
the executed tasks, the output keys accumulate in the same order, the log
grows by one entry per task, earlier log entries are preserved, and the entry
for the i-th task records exactly the outputs completed before it. -/
theorem execTasks_ok_spec (cap : Capability) (inputs : List (String × String)) :
    ∀ (ts : List PTask) (outs : List (String × String)) (usage : Nat)
      (trace : List String) (log : List (String × List (String × String)))
      (outs' : List (String × String)) (usage' : Nat) (trace' : List String)
      (log' : List (String × List (String × String))),
      execTasks cap inputs ts outs usage trace log =
        .ok (outs', usage', trace', log') →
      trace' = trace ++ ts.map PTask.id ∧
      outs'.map Prod.fst = outs.map Prod.fst ++ ts.map PTask.id ∧
      log'.length = log.length + ts.length ∧
      (∀ k, k < log.length → log'[k]? = log[k]?) ∧
      (∀ i, i < ts.length →
        (log'[log.length + i]?).map (fun e => (e.1, e.2.map Prod.fst)) =
          (ts[i]?).map
            (fun u => (u.id, outs.map Prod.fst ++ (ts.take i).map PTask.id))) := by
  intro ts
  induction ts with
  | nil =>
      intro outs usage trace log outs' usage' trace' log' h
      simp only [execTasks, Except.ok.injEq, Prod.mk.injEq] at h
      obtain ⟨h1, h2, h3, h4⟩ := h
      subst h1; subst h2; subst h3; subst h4
      refine ⟨by simp, by simp, by simp, fun k hk => rfl, fun i hi => by simp at hi⟩
  | cons t rest ih =>
      intro outs usage trace log outs' usage' trace' log' h
      simp only [execTasks] at h
      cases hc : cap t (renderTask inputs outs t) with
      | error e => rw [hc] at h; cases h
      | ok p =>
          obtain ⟨out, u⟩ := p
          rw [hc] at h
          obtain ⟨htr, hkeys, hlen, hpres, hidx⟩ := ih _ _ _ _ _ _ _ _ h
          refine ⟨?_, ?_, ?_, ?_, ?_⟩
          · rw [htr]; simp
          · rw [hkeys]; simp
          · rw [hlen]; simp [Nat.add_assoc, Nat.add_comm 1 rest.length]
          · intro k hk
            have hk' : k < (log ++ [(t.id, outs)]).length := by
              simp; omega
            rw [hpres k hk']
            exact List.getElem?_append_left hk
          · intro i hi
            cases i with
            | zero =>
                have hl : log.length < (log ++ [(t.id, outs)]).length := by simp
                rw [Nat.add_zero, hpres log.length hl]
                rw [List.getElem?_append_right (Nat.le_refl _)]
                simp
            | succ i =>
                have hi' : i < rest.length := by simpa using hi
                have hrw : log.length + (i + 1) = (log ++ [(t.id, outs)]).length + i := by
                  simp; omega
                rw [hrw, hidx i hi']
                cases hr : rest[i]? with
                | none => simp [hr]
                | some v => simp [hr, List.append_assoc]

/-- In a task sequence whose context references are assembly-time valid, the
context of the i-th task only names identifiers registered before it. -/
theorem contextsValid_mem_take :
    ∀ (ts : List PTask) (done : List String),
      contextsValidAux done ts = true →
      ∀ (i : Nat) (t : PTask), ts[i]? = some t →
        ∀ c ∈ t.context, c ∈ done ++ (ts.take i).map PTask.id := by
  intro ts
  induction ts with
  | nil => intro done _ i t ht; simp at ht
  | cons u rest ih =>
      intro done h i t ht c hc
      unfold contextsValidAux at h
      rw [Bool.and_eq_true] at h
      obtain ⟨h1, h2⟩ := h
      cases i with
      | zero =>
          simp only [List.getElem?_cons_zero, Option.some.injEq] at ht
          subst ht
          have := List.all_eq_true.mp h1 c hc
          have hcd : c ∈ done := of_decide_eq_true this
          simp [hcd]
      | succ i =>
          simp only [List.getElem?_cons_succ] at ht
          have := ih (done ++ [u.id]) h2 i t ht c hc
          simpa [List.append_assoc] using this

/-- In a duplicate-free list, the element at position `j` does not occur
among the first `i` elements when `i ≤ j`. -/
theorem nodup_get_not_mem_take {α : Type} :
    ∀ (l : List α), l.Nodup → ∀ (i j : Nat) (hj : j < l.length), i ≤ j →
      l.get ⟨j, hj⟩ ∉ l.take i := by
  intro l
  induction l with
  | nil => intro _ i j hj; simp at hj
  | cons a xs ih =>
      intro hnd i j hj hij
      rw [List.nodup_cons] at hnd
      obtain ⟨ha, hxs⟩ := hnd
      cases i with
      | zero => simp
      | succ i =>
          cases j with
          | zero => omega
          | succ j =>
              have hj' : j < xs.length := by simpa using hj
              simp only [List.take_succ_cons, List.get_cons_succ]
              intro hmem
              rcases List.mem_cons.mp hmem with heq | hmem'
              · exact ha (heq ▸ (xs.get_mem j hj'))
              · exact ih hxs i j hj' (by omega) hmem'

/-! ## Claim C1 -/

/-- C1: registering a task whose context references a task that has not
already been registered in the same pipeline fails with a `DependencyError`
and leaves the task list unchanged; in particular, replaying the `add_task`
calls of `SmartContractAnalyzerV2.setup_tasks` halts at `missing_functions`
— whose context names the never-registered `yellow_functions` — with the six
previously registered tasks unchanged and `missing_functions` not appended. -/
theorem register_task_unregistered_context (ts : List PTask) (t : PTask)
    (c : String) (hc : c ∈ t.context) (hn : c ∉ ts.map PTask.id) :
    ((add_task ts t).1 = ts ∧ (add_task ts t).2.isSome = true) ∧
    register_all [] sca_add_order =
      (sca_before_missing,
        some { taskId := "missing_functions", missing := "yellow_functions" }) ∧
    "missing_functions" ∉ sca_before_missing.map PTask.id := by
  refine ⟨?_, by rfl, by decide⟩
  have hpred : (!(ts.any fun u => u.id == c)) = true := by
    rw [Bool.not_eq_true', List.any_eq_false]
    intro u hu
    simp only [beq_iff_eq]
    intro heq
    exact hn (List.mem_map.mpr ⟨u, hu, heq⟩)
  have hsome : (t.context.find? (fun x => !(ts.any fun u => u.id == x))).isSome = true := by
    rw [List.find?_isSome]
    exact ⟨c, hc, hpred⟩
  cases hf : t.context.find? (fun x => !(ts.any fun u => u.id == x)) with
  | none => rw [hf] at hsome; cases hsome
  | some d =>
      unfold add_task
      rw [hf]
      exact ⟨rfl, rfl⟩

/-- Witness for C1: registering `missing_functions` into the empty task list
(its context names `yellow_functions`, which is absent). -/
theorem register_task_unregistered_context_witness :
    ("yellow_functions" ∈ missing_functions.context) ∧
    ("yellow_functions" ∉ ([] : List PTask).map PTask.id) ∧
    ((add_task [] missing_functions).1 = [] ∧
      (add_task [] missing_functions).2.isSome = true) :=
  ⟨by decide, by decide,
   (register_task_unregistered_context [] missing_functions "yellow_functions"
      (by decide) (by decide)).1⟩

/-! ## Claim C2 -/

set_option maxRecDepth 16384 in
/-- C2 (a bug in the code): `SmartContractAnalyzerV2.get_task_inputs` is
hard-coded to `["contract_code"]`, but the placeholder names its task
templates require callers to supply include `contract_name` (it occurs in
`analysisFormat`, which is part of the expected output of `compile_analysis`,
and it is satisfied by no task output since no task identifier is
`contract_name`) — and `contract_name`, not `contract_code`, is exactly the
key that `render_crew` supplies; `contract_code` occurs in no template of the
pipeline. -/
theorem get_task_inputs_divergence :
    SmartContractAnalyzerV2.get_task_inputs = ["contract_code"] ∧
    "contract_name" ∈ extractPlaceholders analysisFormat ∧
    analysisFormat ∈ compile_analysis.expected_output ∧
    "contract_name" ∈ sca_template_placeholders ∧
    "contract_name" ∉ sca_defined_tasks.map PTask.id ∧
    "contract_name" ∉ SmartContractAnalyzerV2.get_task_inputs ∧
    "contract_code" ∉ sca_template_placeholders ∧
    (∀ ci, (render_crew_inputs ci).map Prod.fst = ["contract_name"]) :=
  ⟨rfl, by decide, by decide, by decide, by decide, by decide, by decide,
   fun _ => rfl⟩

/-! ## Claim C3 -/

/-- C3: `setup_agents` registers exactly two agents (the
`contract_report_writer` agent is constructed but never passed to
`add_agent`), so the accesses `self.agents[2]` made when constructing
`compile_analysis`, `compile_review` and `final_report` in `setup_tasks` are
out of bounds: position 2 of the registered agent list is empty. -/
theorem setup_agents_index_out_of_bounds :
    setup_agents_registered.length = 2 ∧
    setup_agents_registered =
      [contract_retrieval_agent, contract_analysis_agent] ∧
    compile_analysis.agentIdx = 2 ∧
    compile_review.agentIdx = 2 ∧
    final_report.agentIdx = 2 ∧
    setup_agents_registered[2]? = none ∧
    contract_report_writer ∉ setup_agents_registered :=
  ⟨rfl, rfl, rfl, rfl, rfl, rfl, by decide⟩

/-! ## Claim C4 -/

/-- C4: for every pipeline (the sources always build sequential crews, as
`crew` of contract_code_generator.py does with `process=Process.sequential`),
a successful `run` invokes the tasks exactly in their declaration order, one
at a time: the invocation trace equals the task list in registration order. -/
theorem run_declaration_order (P : Pipeline) (inputs : List (String × String))
    (cap : Capability) (r : RunResult)
    (hseq : P.process = PProcess.sequential)
    (hok : run P inputs cap = .ok r) :
    r.trace = P.tasks.map PTask.id := by
  unfold run at hok
  cases hexec : execTasks cap inputs P.tasks [] 0 [] [] with
  | error e => rw [hexec] at hok; cases hok
  | ok q =>
      obtain ⟨outs, usage, trace, log⟩ := q
      rw [hexec] at hok
      obtain ⟨htr, -, -, -, -⟩ :=
        execTasks_ok_spec cap inputs P.tasks [] 0 [] [] outs usage trace log hexec
      cases hok
      simpa using htr

/-- Witness for C4: the generator crew run with the deterministic stub
capability; the trace is its three tasks in declaration order. -/
theorem run_declaration_order_witness :
    (run crew [("user_input", "doc1")] stubCap).map RunResult.trace =
      .ok (crew.tasks.map PTask.id) := by
  have hsome : (run crew [("user_input", "doc1")] stubCap).toOption.isSome = true := by
    decide
  cases hr : run crew [("user_input", "doc1")] stubCap with
  | error e => rw [hr] at hsome; simp [Except.toOption] at hsome
  | ok r =>
      have h := run_declaration_order crew [("user_input", "doc1")] stubCap r rfl hr
      simp [Except.map, h]

/-! ## Claim C5 -/

/-- C5: in a well-formed pipeline (context references point to earlier tasks,
task identifiers are distinct), when a successful `run` reaches the rendering
step of any task — the task at position `i`, the final one included — the
pool of completed outputs recorded for that step consists exactly of the
tasks declared before it; hence every declared context task of that task
resolves to a completed output, and the output of a task declared at any
later position `j` is not available. -/
theorem run_context_outputs_available (P : Pipeline)
    (inputs : List (String × String)) (cap : Capability) (r : RunResult)
    (hvalid : contextsValidAux [] P.tasks = true)
    (hnodup : (P.tasks.map PTask.id).Nodup)
    (hrun : run P inputs cap = .ok r)
    (i : Nat) (hi : i < P.tasks.length) :
    ((r.log[i]?).map (fun e => e.2.map Prod.fst)) =
      some ((P.tasks.take i).map PTask.id) ∧
    (∀ c ∈ (P.tasks.get ⟨i, hi⟩).context,
      (r.log[i]?).map (fun e => (lookupStr e.2 c).isSome) = some true) ∧
    (∀ (j : Nat) (hj : j < P.tasks.length), i < j →
      (r.log[i]?).map
          (fun e => (lookupStr e.2 (P.tasks.get ⟨j, hj⟩).id).isSome) = some false) := by
  unfold run at hrun
  cases hexec : execTasks cap inputs P.tasks [] 0 [] [] with
  | error e => rw [hexec] at hrun; cases hrun
  | ok q =>
      obtain ⟨outs, usage, trace, log⟩ := q
      rw [hexec] at hrun
      obtain ⟨-, -, -, -, hidx⟩ :=
        execTasks_ok_spec cap inputs P.tasks [] 0 [] [] outs usage trace log hexec
      cases hrun
      have hlog := hidx i hi
      simp only [List.length_nil, Nat.zero_add] at hlog
      have hts : P.tasks[i]? = some (P.tasks.get ⟨i, hi⟩) := by
        rw [List.getElem?_eq_getElem hi]
        rfl
      rw [hts] at hlog
      cases hlogi : log[i]? with
      | none => rw [hlogi] at hlog; simp at hlog
      | some entry =>
          rw [hlogi] at hlog
          simp only [Option.map_some', Option.some.injEq, Prod.mk.injEq] at hlog
          obtain ⟨-, hsnd⟩ := hlog
          have hkeys : entry.2.map Prod.fst = (P.tasks.take i).map PTask.id := by
            simpa using hsnd
          refine ⟨?_, ?_, ?_⟩
          · rw [Option.map_some', hkeys]
          · intro c hcmem
            have hcin := contextsValid_mem_take P.tasks [] hvalid i _ hts c hcmem
            have hmem : c ∈ entry.2.map Prod.fst := by
              rw [hkeys]; simpa using hcin
            have hsome := (lookupStr_isSome_iff entry.2 c).mpr hmem
            rw [Option.map_some', hsome]
          · intro j hj hij
            have hjlen : j < (P.tasks.map PTask.id).length := by simpa using hj
            have hnm := nodup_get_not_mem_take (P.tasks.map PTask.id) hnodup i j
              hjlen (le_of_lt hij)
            have hget : (P.tasks.map PTask.id).get ⟨j, hjlen⟩ =
                (P.tasks.get ⟨j, hj⟩).id := by
              simp [List.get_eq_getElem, List.getElem_map]
            rw [hget, ← List.map_take] at hnm
            have hnot : (P.tasks.get ⟨j, hj⟩).id ∉ entry.2.map Prod.fst := by
              rw [hkeys]; exact hnm
            have hfalse : (lookupStr entry.2 ((P.tasks.get ⟨j, hj⟩).id)).isSome = false := by
              cases hb : (lookupStr entry.2 ((P.tasks.get ⟨j, hj⟩).id)).isSome with
              | false => rfl
              | true => exact absurd ((lookupStr_isSome_iff _ _).mp hb) hnot
            rw [Option.map_some', hfalse]

/-- Witness for C5: the spec example pipeline (A then B, B with context
`[A]`) run with the stub capability.  At the final, context-bearing task B
(position `i = 1`) the recorded pool is exactly the output of A and the
declared context identifier `A` resolves to a completed output; at task A
(position `i = 0`) nothing is available yet — in particular not the output of
the later task B. -/
theorem run_context_outputs_available_witness :
    contextsValidAux [] examplePipeline.tasks = true ∧
    (examplePipeline.tasks.map PTask.id).Nodup ∧
    "A" ∈ exampleTaskB.context ∧
    ((match run examplePipeline [("x", "doc1")] stubCap with
      | .ok r =>
          (r.log[1]?).map (fun e => e.2.map Prod.fst) =
            some ((examplePipeline.tasks.take 1).map PTask.id) ∧
          (r.log[1]?).map (fun e => (lookupStr e.2 "A").isSome) = some true ∧
          (r.log[0]?).map
              (fun e => (lookupStr e.2 (examplePipeline.tasks.get ⟨1, by decide⟩).id).isSome) =
            some false
      | .error _ => False)) := by
  refine ⟨by decide, by decide, by decide, ?_⟩
  have hsome : (run examplePipeline [("x", "doc1")] stubCap).toOption.isSome = true := by
    decide
  cases hr : run examplePipeline [("x", "doc1")] stubCap with
  | error e => rw [hr] at hsome; simp [Except.toOption] at hsome
  | ok r =>
      have h1 := run_context_outputs_available examplePipeline [("x", "doc1")]
        stubCap r (by decide) (by decide) hr 1 (by decide)
      have h0 := run_context_outputs_available examplePipeline [("x", "doc1")]
        stubCap r (by decide) (by decide) hr 0 (by decide)
      exact ⟨h1.1, h1.2.1 "A" (by decide), h0.2.2 1 (by decide) (by decide)⟩

/-! ## Claim C6 -/

/-- C6: if the capability invocation of a task errors during `run`, the
pipeline fails with an `ExecutionError` carrying that task identifier and the
underlying cause; the invocation trace recorded in the error shows that every
earlier task was invoked exactly once in order and that no task declared
after the failing one was invoked (fail-fast, no retry); and the error result
carries none of the intermediate outputs of the run. -/
theorem run_fail_fast (P : Pipeline) (inputs : List (String × String))
    (cap : Capability) (pre : List PTask) (t : PTask) (post : List PTask)
    (outs : List (String × String)) (usage : Nat) (trace : List String)
    (log : List (String × List (String × String))) (e : String)
    (hsplit : P.tasks = pre ++ t :: post)
    (hpre : execTasks cap inputs pre [] 0 [] [] = .ok (outs, usage, trace, log))
    (hfail : cap t (renderTask inputs outs t) = .error e) :
    run P inputs cap =
      .error { taskId := t.id, cause := e, trace := pre.map PTask.id ++ [t.id] } := by
  have htr : trace = pre.map PTask.id := by
    obtain ⟨h1, -, -, -, -⟩ :=
      execTasks_ok_spec cap inputs pre [] 0 [] [] outs usage trace log hpre
    simpa using h1
  unfold run
  rw [hsplit, execTasks_append, hpre]
  simp only [execTasks, hfail, htr]

/-- Witness for C6: the example pipeline with the capability that raises on
task B; the run aborts at B with the cause and a trace that invoked A once
and B once. -/
theorem run_fail_fast_witness :
    run examplePipeline [("x", "doc1")] failBCap =
      .error { taskId := "B", cause := "boom", trace := ["A", "B"] } := by
  have h := run_fail_fast examplePipeline [("x", "doc1")] failBCap
    [exampleTaskA] exampleTaskB [] [("A", "A output")] 1 ["A"] [("A", [])] "boom"
    rfl (by rfl) (by rfl)
  simpa using h

/-! ## Claim C9 -/

/-- C9: the pipeline mechanism is deterministic — for a fixed pipeline, fixed
inputs and a fixed (deterministic) capability, any two successful invocations
of `run` agree on the final textual output, on the accumulated usage total,
and indeed on the whole result. -/
theorem run_deterministic (P : Pipeline) (inputs : List (String × String))
    (cap : Capability) (r₁ r₂ : RunResult)
    (h₁ : run P inputs cap = .ok r₁) (h₂ : run P inputs cap = .ok r₂) :
    r₁.final = r₂.final ∧ r₁.usage = r₂.usage ∧ r₁ = r₂ := by
  rw [h₁] at h₂
  cases h₂
  exact ⟨rfl, rfl, rfl⟩

/-- Witness for C9: two invocations of `generate_and_review_contract` (the
generator crew) with the stub capability and the same input agree on the
final output. -/
theorem run_deterministic_witness :
    (generate_and_review_contract stubCap "doc1").toOption.map RunResult.final =
      (run crew [("user_input", "doc1")] stubCap).toOption.map RunResult.final := by
  show (run crew [("user_input", "doc1")] stubCap).toOption.map RunResult.final = _
  cases hr : run crew [("user_input", "doc1")] stubCap with
  | error e => rfl
  | ok r =>
      have h := run_deterministic crew [("user_input", "doc1")] stubCap r r hr hr
      rw [h.2.2]

/-! ## Claim C10 -/

/-- C10: `runClarinet` restores the process working directory on every exit
path — the `finally` clause returns to the directory recorded before the
`try` block, even though a successful `clarinet new` changes into the project
directory inside the body — and a `CalledProcessError` from a subprocess is
caught and turned into a returned text message beginning with `Error:`
rather than a raised error. -/
theorem runClarinet_preserves_cwd (env : ClarinetEnv)
    (project_name contract_name contract_code cwd : String) :
    ((runClarinet env project_name contract_name contract_code cwd).2 = cwd) ∧
    (env.newOk = true →
      (runClarinetTry env project_name contract_name cwd).2 = project_name) ∧
    (∀ m,
      (runClarinet env project_name contract_name contract_code cwd).1 =
        .caughtCPE m →
      ∃ suffix, m = "Error: " ++ suffix) := by
  obtain ⟨n, c, w⟩ := env
  refine ⟨rfl, ?_, ?_⟩
  · intro h
    subst h
    cases c <;> cases w <;> rfl
  · intro m hm
    cases n <;> cases c <;> cases w <;>
      simp only [runClarinet, runClarinetTry, Bool.not_true, Bool.not_false,
        if_true, if_false, ite_true, ite_false] at hm <;>
      cases hm <;> exact ⟨_, rfl⟩

/-- Witness for C10: a failing `clarinet new` (the other steps irrelevant);
the working directory is restored and the caught error message carries the
`Error:` prefix. -/
theorem runClarinet_preserves_cwd_witness :
    ((runClarinet ⟨false, true, true⟩ "proj" "ctr" ";; code" "/work").2 = "/work") ∧
    (∃ suffix,
      ("Error: " ++ calledProcessErrorMsg ("clarinet new " ++ "proj")) =
        "Error: " ++ suffix) :=
  ⟨(runClarinet_preserves_cwd ⟨false, true, true⟩ "proj" "ctr" ";; code" "/work").1,
   (runClarinet_preserves_cwd ⟨false, true, true⟩ "proj" "ctr" ";; code" "/work").2.2
     ("Error: " ++ calledProcessErrorMsg ("clarinet new " ++ "proj")) rfl⟩
